import Mathlib

/-!
Verification of the camille windfield-reconstruction engine.

The development shallowly embeds the two C++ translation units:

* `src/camille/process/lidar2.cpp` — the static-platform variant
  (namespace `Lidar2` below);
* `src/camille/core.cpp` — the motion-compensated variant
  (namespace `Core` below).

Doubles are modelled as real numbers; where a claim is about IEEE special
values (NaN/infinity) a dedicated value type `F` with explicit NaN and
infinities is used for the function in question.  A double field that the
code deliberately sets to the quiet-NaN sentinel is modelled as `Option ℝ`
with `none` playing the role of NaN.  Machine `size_t` arithmetic is
modelled with explicit wrap-around modulo `2 ^ 64`.  Uninitialised C++
stack objects are modelled as explicitly threaded "junk" parameters:
whatever the claim says must hold for every junk value.
-/

noncomputable section

open Real

/-- Beam x-projection coefficient: the expression both sources compute for
`a` (beam a) and `c` (beam b) in the static `planar_windspeed`
(lidar2.cpp 28–37) and for `a0`/`b0` in core.cpp 319–332. -/
def coefX (pitch roll azm zn : ℝ) : ℝ :=
  cos pitch * cos zn +
    cos azm * sin pitch * sin roll * sin zn -
    cos roll * sin pitch * sin zn * sin azm

/-- Beam y-projection coefficient: the expression both sources compute for
`b`/`d` in the static `planar_windspeed` (lidar2.cpp 32–40) and for
`a1`/`b1` in core.cpp 323–335. -/
def coefY (pitch roll azm zn : ℝ) : ℝ :=
  cos roll * cos azm * sin zn + sin roll * sin zn * sin azm

/-- Beam z-projection coefficient `a2`/`b2` (core.cpp 326–339);
only used by the motion-compensated variant. -/
def coefZ (pitch roll azm zn : ℝ) : ℝ :=
  cos zn * sin pitch -
    cos pitch * cos azm * sin roll * sin zn +
    cos pitch * cos roll * sin zn * sin azm

namespace Lidar2

/-- Shallow embedding of `sample_hgt` (lidar2.cpp, lines 9–18):
height of a beam sample for the static-platform variant. -/
def sample_hgt (hub_hgt lidar_hgt dist pitch roll azm zn : ℝ) : ℝ :=
  let scale := sin zn * cos pitch * sin (azm - roll) + cos zn * sin pitch
  hub_hgt + lidar_hgt + (dist / cos zn) * scale

/-- Shallow embedding of the static `planar_windspeed`
(lidar2.cpp, lines 20–46).  Returns `(speed, x, y)` exactly as the code
returns `{ sqrt(x^2 + y^2), x, y }`.  Real division is total in Lean
(`r / 0 = 0`), standing in for the IEEE division the code performs; every
claim settled against this definition is checked to fail or hold for both
conventions. -/
def planar_windspeed (rws_a rws_b pitch roll azm_a azm_b zn_a zn_b : ℝ) :
    ℝ × ℝ × ℝ :=
  let a := coefX pitch roll azm_a zn_a
  let b := coefY pitch roll azm_a zn_a
  let c := coefX pitch roll azm_b zn_b
  let d := coefY pitch roll azm_b zn_b
  let x := (b * rws_b - d * rws_a) / (b * c - d * a)
  let y := (rws_a - a * x) / b
  (Real.sqrt (x ^ 2 + y ^ 2), x, y)

/-- Shallow embedding of the static `shear` (lidar2.cpp 48–54; the same
expression as core.cpp 189–195), over the reals. -/
def shear (ws_upr ws_lwr hgt_upr hgt_lwr : ℝ) : ℝ :=
  Real.log (ws_upr / ws_lwr) / Real.log (hgt_upr / hgt_lwr)

/-- Shallow embedding of the static `veer` (lidar2.cpp 56–62): the raw,
unwrapped direction difference divided by the height difference. -/
def veer (dir_upr dir_lwr hgt_upr hgt_lwr : ℝ) : ℝ :=
  (dir_upr - dir_lwr) / (hgt_upr - hgt_lwr)

/-- Shallow embedding of `extrapolate_windspeed` (lidar2.cpp 64–70):
power-law extrapolation, `pow` modelled by the real power `rpow`. -/
def extrapolate_windspeed (hgt shr ref_windspeed ref_hgt : ℝ) : ℝ :=
  ref_windspeed * (hgt / ref_hgt) ^ shr

/-- Shallow embedding of `extrapolate_wind_direction` (lidar2.cpp 72–77). -/
def extrapolate_wind_direction (hgt vr ref_wind_direction ref_hgt : ℝ) : ℝ :=
  ref_wind_direction + vr * (hgt - ref_hgt)

end Lidar2

/-- The two-argument arctangent `atan2 y x`, as the C library defines it:
the argument of the complex number `x + y·i`. -/
def atan2 (y x : ℝ) : ℝ := Complex.arg (Complex.mk x y)

/-- The 3-component vector `vec3` of core.cpp (lines 20–24). -/
structure vec3 where
  x : ℝ
  y : ℝ
  z : ℝ

/-- The attitude record `euler_angles` of core.cpp (lines 26–30). -/
structure euler_angles where
  pitch : ℝ
  roll : ℝ
  yaw : ℝ

namespace Core

/-- One raw beam measurement, `lidar::sample` of core.cpp (lines 34–43).
`time` is the `uint64_t` nanosecond timestamp, `los_id` and `status` are
C `int`s. -/
structure sample where
  time : ℕ
  los_id : ℤ
  rws : ℝ
  translation : vec3
  rotation : euler_angles
  velocity : vec3
  angular_velocity : euler_angles
  status : ℤ

/-- The plane descriptor `lidar::planar_desc` of core.cpp (lines 45–52).
Double fields are `Option ℝ`: `none` models the quiet-NaN sentinel the
code stores in them. -/
structure planar_desc where
  status : ℤ
  spd : Option ℝ
  dir : Option ℝ
  x : Option ℝ
  y : Option ℝ
  hgt : Option ℝ

/-- One output row, `lidar::windfield_desc` of core.cpp (lines 54–76). -/
structure windfield_desc where
  time : ℕ
  shear : Option ℝ
  veer : Option ℝ
  upper : planar_desc
  lower : planar_desc

/-- Shallow embedding of `sample_pos` (core.cpp, lines 100–123): the 3D
sample position of a beam on the moving platform.  The code overwrites
`dist` with `dist / cos(zn)` before using it; `d` is that slant range. -/
def sample_pos (lidar_hgt dist heave surge pitch roll azm zn : ℝ) : vec3 :=
  let d := dist / cos zn
  { x := cos pitch * d * cos zn +
        sin pitch * sin zn * d * (sin roll * cos azm - cos roll * sin azm) -
        sin pitch * cos roll * lidar_hgt + surge
    y := sin zn * d * (cos roll * cos azm + sin roll * sin azm) +
        sin roll * lidar_hgt
    z := sin pitch * d * cos zn +
        cos pitch * sin zn * d * (cos roll * sin azm - sin roll * cos azm) +
        cos pitch * cos roll * lidar_hgt + heave }

/-- Shallow embedding of `inertial_reference_frame` (core.cpp, lines
151–162): rigid-body velocity at `position`. -/
def inertial_reference_frame (velocity : vec3) (angular_velocity : euler_angles)
    (position : vec3) : vec3 :=
  { x := velocity.x +
        (angular_velocity.yaw * position.y - angular_velocity.pitch * position.z)
    y := velocity.y +
        (angular_velocity.roll * position.z - angular_velocity.yaw * position.x)
    z := velocity.z +
        (angular_velocity.pitch * position.x - angular_velocity.roll * position.y) }

/-- Shallow embedding of the motion-compensated `planar_windspeed`
(core.cpp, lines 304–348).  Real division is total in Lean (`r / 0 = 0`),
standing in for the IEEE division the code performs. -/
def planar_windspeed (rws_a rws_b : ℝ) (rotation : euler_angles)
    (azm_a azm_b zn_a zn_b : ℝ)
    (inertial_reference_frame_a inertial_reference_frame_b : vec3) : ℝ × ℝ :=
  let a0 := coefX rotation.pitch rotation.roll azm_a zn_a
  let a1 := coefY rotation.pitch rotation.roll azm_a zn_a
  let a2 := coefZ rotation.pitch rotation.roll azm_a zn_a
  let b0 := coefX rotation.pitch rotation.roll azm_b zn_b
  let b1 := coefY rotation.pitch rotation.roll azm_b zn_b
  let b2 := coefZ rotation.pitch rotation.roll azm_b zn_b
  let Ia := inertial_reference_frame_a
  let Ib := inertial_reference_frame_b
  let x := (a0 * b1 * Ia.x - a1 * b0 * Ib.x + a1 * b1 * (Ia.y - Ib.y) -
      a1 * b2 * Ib.z + a2 * b1 * Ia.z - a1 * rws_b + b1 * rws_a) /
      (a0 * b1 - a1 * b0)
  let y := (rws_a - a0 * (x - Ia.x) + a2 * Ia.z) / a1 + Ia.y
  (x, y)

/-- Shallow embedding of `shear` (core.cpp, lines 189–195); the same
expression as the static variant. -/
def shear (ws_upr ws_lwr hgt_upr hgt_lwr : ℝ) : ℝ :=
  Real.log (ws_upr / ws_lwr) / Real.log (hgt_upr / hgt_lwr)

/-- Shallow embedding of `veer` (core.cpp, lines 217–230): the direction
difference is normalised with `atan2(sin a, cos a)` before dividing by the
height difference. -/
def veer (dir_upr dir_lwr hgt_upr hgt_lwr : ℝ) : ℝ :=
  let a := dir_upr - dir_lwr
  let n := atan2 (Real.sin a) (Real.cos a)
  n / (hgt_upr - hgt_lwr)

end Core

namespace Core

/-- Shallow embedding of `calc_plane_desc` (core.cpp, lines 393–459).
`desc0` is the indeterminate content of the uninitialised local
`planar_desc desc;`: the status-0 early return assigns `status`, `spd`
(twice), `dir`, `x` and `y` but never `hgt`, so `hgt` keeps whatever
`desc0` held.  In the valid path every field is assigned. -/
def calc_plane_desc (desc0 : planar_desc) (beam_a beam_b : sample)
    (dist lidar_hgt azm_a azm_b zn_a zn_b : ℝ) : planar_desc :=
  let status : ℤ := if beam_a.status ≠ 0 ∧ beam_b.status ≠ 0 then 1 else 0
  if status = 0 then
    { desc0 with status := 0, spd := none, dir := none, x := none, y := none }
  else
    let rotation : euler_angles :=
      { pitch := (beam_a.rotation.pitch + beam_b.rotation.pitch) / 2
        roll := (beam_a.rotation.roll + beam_b.rotation.roll) / 2
        yaw := 0 }
    let pos_a := sample_pos lidar_hgt dist beam_a.translation.z
      beam_a.translation.x beam_a.rotation.pitch beam_a.rotation.roll azm_a zn_a
    let pos_b := sample_pos lidar_hgt dist beam_b.translation.z
      beam_b.translation.x beam_b.rotation.pitch beam_b.rotation.roll azm_b zn_b
    let I_a := inertial_reference_frame beam_a.velocity
      beam_a.angular_velocity pos_a
    let I_b := inertial_reference_frame beam_b.velocity
      beam_b.angular_velocity pos_b
    let w := planar_windspeed beam_a.rws beam_b.rws rotation
      azm_a azm_b zn_a zn_b I_a I_b
    { status := 1
      spd := some (Real.sqrt (w.1 * w.1 + w.2 * w.2))
      dir := some (atan2 w.2 w.1)
      x := some w.1
      y := some w.2
      hgt := some ((pos_a.z + pos_b.z) / 2) }

/-- Shallow embedding of `calc_windfield_desc` (core.cpp, lines 492–524).
`desc0U`/`desc0L` are the indeterminate contents of the two uninitialised
`planar_desc` locals of the two `calc_plane_desc` calls.  When both plane
statuses are 1, the plane fields read by `shear`/`veer` are `some` values
by construction, so the `getD 0` defaults are never the value used. -/
def calc_windfield_desc (desc0U desc0L : planar_desc) (time : ℕ)
    (b0 b1 b2 b3 : sample) (distance lidar_hgt : ℝ)
    (azimuths zeniths : Fin 4 → ℝ) : windfield_desc :=
  let upper_desc := calc_plane_desc desc0U b0 b1 distance lidar_hgt
    (azimuths 0) (azimuths 1) (zeniths 0) (zeniths 1)
  let lower_desc := calc_plane_desc desc0L b2 b3 distance lidar_hgt
    (azimuths 2) (azimuths 3) (zeniths 2) (zeniths 3)
  if upper_desc.status = 1 ∧ lower_desc.status = 1 then
    { time := time
      shear := some (shear (upper_desc.spd.getD 0) (lower_desc.spd.getD 0)
        (upper_desc.hgt.getD 0) (lower_desc.hgt.getD 0))
      veer := some (veer (upper_desc.dir.getD 0) (lower_desc.dir.getD 0)
        (upper_desc.hgt.getD 0) (lower_desc.hgt.getD 0))
      upper := upper_desc
      lower := lower_desc }
  else
    { time := time
      shear := none
      veer := none
      upper := upper_desc
      lower := lower_desc }

/-- The `los_id` range check of `validate_and_sort` (core.cpp 546–548). -/
def valid_los_id (s : sample) : Prop := 0 ≤ s.los_id ∧ s.los_id < 4

instance (s : sample) : Decidable (valid_los_id s) :=
  inferInstanceAs (Decidable (0 ≤ s.los_id ∧ s.los_id < 4))

/-- The `found` flag array of `validate_and_sort` (core.cpp 553–556):
four successive writes of `true` at the samples' `los_id` indices. -/
def foundFlags (b : Fin 4 → sample) : ℤ → Bool :=
  Function.update (Function.update (Function.update (Function.update
    (fun _ => false)
    (b 0).los_id true) (b 1).los_id true) (b 2).los_id true) (b 3).los_id true

/-- The slot assignment of `validate_and_sort` (core.cpp 562–565):
`win[b[i].los_id] = b[i]` for `i = 0..3`, later writes overwriting
earlier ones.  `win0` is the indeterminate content of the uninitialised
`std::array<sample, 4> window;` of the caller. -/
def sorted_window (win0 : ℤ → sample) (b : Fin 4 → sample) : ℤ → sample :=
  Function.update (Function.update (Function.update (Function.update
    win0
    (b 0).los_id (b 0)) (b 1).los_id (b 1)) (b 2).los_id (b 2)) (b 3).los_id (b 3)

/-- Shallow embedding of `validate_and_sort` (core.cpp, lines 544–568):
all four `los_id`s must be in range and every index 0–3 must be hit. -/
def validate_and_sort (win0 : ℤ → sample) (b : Fin 4 → sample) :
    Option (ℤ → sample) :=
  if ¬(valid_los_id (b 0) ∧ valid_los_id (b 1) ∧
      valid_los_id (b 2) ∧ valid_los_id (b 3)) then
    none
  else if ¬(foundFlags b 0 = true ∧ foundFlags b 1 = true ∧
      foundFlags b 2 = true ∧ foundFlags b 3 = true) then
    none
  else
    some (sorted_window win0 b)

/-- The indeterminate contents of the uninitialised C++ stack objects the
aggregator loop uses, plus the out-of-range read default (never reached
for in-range windows). -/
structure junk_state where
  win : ℤ → sample
  descU : planar_desc
  descL : planar_desc
  samp : sample

/-- The 4-sample window starting at raw index `i`
(core.cpp 655–657: `{beam[i], beam[i+1], beam[i+2], beam[i+3]}`). -/
def windowAt (J : junk_state) (beams : List sample) (i : ℕ) :
    Fin 4 → sample :=
  fun k => beams.getD (i + k) J.samp

/-- The descriptor the loop body assembles from a validated window:
`calc_windfield_desc(b[0].time, window, ...)` with the sorted window. -/
def window_desc (J : junk_state) (distance lidar_hgt : ℝ)
    (azimuths zeniths : Fin 4 → ℝ) (b : Fin 4 → sample) : windfield_desc :=
  calc_windfield_desc J.descU J.descL (b 0).time
    (sorted_window J.win b 0) (sorted_window J.win b 1)
    (sorted_window J.win b 2) (sorted_window J.win b 3)
    distance lidar_hgt azimuths zeniths

/-- One iteration of the aggregator loop (core.cpp, lines 654–671):
skip the window unless `validate_and_sort` accepts it, assemble the
descriptor, and keep it only when at least one plane is valid. -/
def processWindow (J : junk_state) (distance lidar_hgt : ℝ)
    (azimuths zeniths : Fin 4 → ℝ) (b : Fin 4 → sample) :
    Option windfield_desc :=
  match validate_and_sort J.win b with
  | none => none
  | some window =>
      let wf_desc := calc_windfield_desc J.descU J.descL (b 0).time
        (window 0) (window 1) (window 2) (window 3)
        distance lidar_hgt azimuths zeniths
      if wf_desc.upper.status = 1 ∨ wf_desc.lower.status = 1 then
        some wf_desc
      else
        none

/-- The aggregator's descriptor list (core.cpp, lines 653–671): one pass
of the stride-1 window over indices `0 ≤ i < len − 3`. -/
def core_windfield_descs (J : junk_state) (beams : List sample)
    (distance lidar_hgt : ℝ) (azimuths zeniths : Fin 4 → ℝ) :
    List windfield_desc :=
  (List.range (beams.length - 3)).filterMap
    (fun i => processWindow J distance lidar_hgt azimuths zeniths
      (windowAt J beams i))

/-- The per-index `sample` records built from the input columns
(core.cpp, lines 629–651). -/
def mk_samples (time : List ℕ) (los_id : List ℤ)
    (rws heave surge pitch roll surge_velocity sway_velocity heave_velocity
      pitch_velocity roll_velocity yaw_velocity : List ℝ)
    (status : List ℤ) : List sample :=
  (List.range time.length).map (fun i =>
    { time := time.getD i 0
      los_id := los_id.getD i 0
      rws := rws.getD i 0
      translation := { x := surge.getD i 0, y := 0, z := heave.getD i 0 }
      rotation := { pitch := pitch.getD i 0, roll := roll.getD i 0, yaw := 0 }
      velocity := { x := surge_velocity.getD i 0, y := sway_velocity.getD i 0,
                    z := heave_velocity.getD i 0 }
      angular_velocity := { pitch := pitch_velocity.getD i 0,
                            roll := roll_velocity.getD i 0,
                            yaw := yaw_velocity.getD i 0 }
      status := status.getD i 0 })

/-- Shallow embedding of the entry point `core_windfield_desc`
(core.cpp, lines 591–692).  Every per-sample column is length-checked
against the `time` column (`checked_ptr`, lines 526–542; in this
1-D embedding the reachable failure is the shape comparison, whose
message is the — swapped — "All columns must be one dimensional");
on success the descriptor list is produced, from which the output dict's
15 columns are direct per-field projections (`mkcol`). -/
def core_windfield_desc (J : junk_state) (time : List ℕ) (los_id : List ℤ)
    (rws heave surge pitch roll surge_velocity sway_velocity heave_velocity
      pitch_velocity roll_velocity yaw_velocity : List ℝ)
    (status : List ℤ) (distance lidar_hgt : ℝ)
    (azimuths zeniths : Fin 4 → ℝ) : Except String (List windfield_desc) :=
  if los_id.length = time.length ∧ rws.length = time.length ∧
      heave.length = time.length ∧ surge.length = time.length ∧
      pitch.length = time.length ∧ roll.length = time.length ∧
      surge_velocity.length = time.length ∧
      sway_velocity.length = time.length ∧
      heave_velocity.length = time.length ∧
      pitch_velocity.length = time.length ∧
      roll_velocity.length = time.length ∧
      yaw_velocity.length = time.length ∧
      status.length = time.length then
    Except.ok (core_windfield_descs J
      (mk_samples time los_id rws heave surge pitch roll surge_velocity
        sway_velocity heave_velocity pitch_velocity roll_velocity
        yaw_velocity status)
      distance lidar_hgt azimuths zeniths)
  else
    Except.error "All columns must be one dimensional"

/-- A concrete sample used to instantiate witnesses: all numeric fields
zero except the given `los_id` and `status`. -/
def test_sample (los status : ℤ) : sample :=
  { time := 0
    los_id := los
    rws := 0
    translation := { x := 0, y := 0, z := 0 }
    rotation := { pitch := 0, roll := 0, yaw := 0 }
    velocity := { x := 0, y := 0, z := 0 }
    angular_velocity := { pitch := 0, roll := 0, yaw := 0 }
    status := status }

/-- A concrete junk state used to instantiate witnesses: deliberately
non-NaN descriptor fields so that an unassigned field is observable. -/
def test_junk : junk_state :=
  { win := fun _ => test_sample 0 1
    descU := { status := 5, spd := some 9, dir := some 9, x := some 9,
               y := some 9, hgt := some 7 }
    descL := { status := 5, spd := some 9, dir := some 9, x := some 9,
               y := some 9, hgt := some 7 }
    samp := test_sample 0 1 }

end Core

namespace Lidar2

/-- The values the static aggregator `ps` reads from memory beyond the
end of an input array (an out-of-bounds read, reachable because of the
unsigned `size - 4` underflow and the unchecked `los_id`/`status`
lengths): one arbitrary value per address, per array. -/
structure psJunk where
  time : ℕ → ℤ
  los : ℕ → ℤ
  pitch : ℕ → ℝ
  roll : ℕ → ℝ
  rws : ℕ → ℝ
  status : ℕ → ℝ

/-- Read element `k` of an integer array; out of bounds yields the junk
value at that address. -/
def readI (l : List ℤ) (j : ℕ → ℤ) (k : ℕ) : ℤ := (l.get? k).getD (j k)

/-- Read element `k` of a double array; out of bounds yields the junk
value at that address. -/
def readR (l : List ℝ) (j : ℕ → ℝ) (k : ℕ) : ℝ := (l.get? k).getD (j k)

/-- The `size_t` subtraction `n - k` (wrap-around modulo `2^64`), as in
the loop guard `i > size - 4` of `ps` (lidar2.cpp 207). -/
def sub64 (n k : ℕ) : ℕ := (n + (2 ^ 64 - k)) % 2 ^ 64

/-- The six values one `horiz_windspeed` call returns
(lidar2.cpp 127: `{hws, hwd, shr, vr, ws_upr[0], ws_lwr[0]}`). -/
structure hw_result where
  hws : ℝ
  hwd : ℝ
  shr : ℝ
  vr : ℝ
  ws_upr : ℝ
  ws_lwr : ℝ

/-- The computation `horiz_windspeed` performs after its under-ground
check passes (lidar2.cpp, lines 91–127). -/
def horiz_windspeed_values (pitch roll rws : Fin 4 → ℝ)
    (dist hub_hgt lidar_hgt : ℝ) (azimuths zeniths : Fin 4 → ℝ) :
    hw_result :=
  let pitch_upr := (pitch 0 + pitch 1) / 2
  let pitch_lwr := (pitch 2 + pitch 3) / 2
  let roll_upr := (roll 0 + roll 1) / 2
  let roll_lwr := (roll 2 + roll 3) / 2
  let beam_hgts : Fin 4 → ℝ := fun i =>
    sample_hgt hub_hgt lidar_hgt dist (pitch i) (roll i)
      (azimuths i) (zeniths i)
  let hgt_upr := (beam_hgts 0 + beam_hgts 1) * 0.5
  let hgt_lwr := (beam_hgts 2 + beam_hgts 3) * 0.5
  let ws_upr := planar_windspeed (rws 0) (rws 1) pitch_upr roll_upr
    (azimuths 0) (azimuths 1) (zeniths 0) (zeniths 1)
  let ws_lwr := planar_windspeed (rws 2) (rws 3) pitch_lwr roll_lwr
    (azimuths 2) (azimuths 3) (zeniths 2) (zeniths 3)
  let dir_upr := atan2 ws_upr.2.2 ws_upr.2.1
  let dir_lwr := atan2 ws_lwr.2.2 ws_lwr.2.1
  let shr := shear ws_upr.1 ws_lwr.1 hgt_upr hgt_lwr
  let vr := veer dir_upr dir_lwr hgt_upr hgt_lwr
  let hws := extrapolate_windspeed hub_hgt shr ws_lwr.1 hgt_lwr
  let hwd := extrapolate_wind_direction hub_hgt vr dir_lwr hgt_lwr
  { hws := hws, hwd := hwd, shr := shr, vr := vr,
    ws_upr := ws_upr.1, ws_lwr := ws_lwr.1 }

/-- Shallow embedding of `horiz_windspeed` (lidar2.cpp, lines 79–128):
throws when any beam height is below zero, otherwise returns the six
windfield values. -/
def horiz_windspeed (pitch roll rws : Fin 4 → ℝ)
    (dist hub_hgt lidar_hgt : ℝ) (azimuths zeniths : Fin 4 → ℝ) :
    Except String hw_result :=
  if sample_hgt hub_hgt lidar_hgt dist (pitch 0) (roll 0)
        (azimuths 0) (zeniths 0) < 0 ∨
      sample_hgt hub_hgt lidar_hgt dist (pitch 1) (roll 1)
        (azimuths 1) (zeniths 1) < 0 ∨
      sample_hgt hub_hgt lidar_hgt dist (pitch 2) (roll 2)
        (azimuths 2) (zeniths 2) < 0 ∨
      sample_hgt hub_hgt lidar_hgt dist (pitch 3) (roll 3)
        (azimuths 3) (zeniths 3) < 0 then
    Except.error "One or more beams are under ground/water."
  else
    Except.ok (horiz_windspeed_values pitch roll rws dist hub_hgt lidar_hgt
      azimuths zeniths)

/-- One output row of `ps`: the `i`-th element of the six output arrays.
`none` models the quiet-NaN fill of rejected rows. -/
structure psRow where
  hws : Option ℝ
  hwd : Option ℝ
  shr : Option ℝ
  vr : Option ℝ
  ws_upper : Option ℝ
  ws_lower : Option ℝ

/-- The all-NaN row written for rejected indices (lidar2.cpp 208–211). -/
def nanRow : psRow :=
  { hws := none, hwd := none, shr := none, vr := none,
    ws_upper := none, ws_lower := none }

/-- A computed row (lidar2.cpp 216–221). -/
def mkRow (h : hw_result) : psRow :=
  { hws := some h.hws, hwd := some h.hwd, shr := some h.shr,
    vr := some h.vr, ws_upper := some h.ws_upr, ws_lower := some h.ws_lwr }

/-- The window predicate of `ps` (lidar2.cpp, lines 187–204): `los_id`
in raw order `0,1,2,3`, all four `status` values equal to `1.0`, and the
window's timestamp span strictly below `5·10^9` nanosecond ticks. -/
def psPredicate (time los : List ℤ) (status : List ℝ) (J : psJunk)
    (i : ℕ) : Prop :=
  (readI los J.los i = 0 ∧ readI los J.los (i + 1) = 1 ∧
    readI los J.los (i + 2) = 2 ∧ readI los J.los (i + 3) = 3) ∧
  (readR status J.status i = 1 ∧ readR status J.status (i + 1) = 1 ∧
    readR status J.status (i + 2) = 1 ∧ readR status J.status (i + 3) = 1) ∧
  (max (max (max (readI time J.time i) (readI time J.time (i + 1)))
        (readI time J.time (i + 2))) (readI time J.time (i + 3)) -
    min (min (min (readI time J.time i) (readI time J.time (i + 1)))
        (readI time J.time (i + 2))) (readI time J.time (i + 3)) <
    5000000000)

open scoped Classical in
/-- The body of one iteration of the `ps` loop (lidar2.cpp, lines
206–222): a NaN row when the window is out of range (with the unsigned
wrap-around in `size - 4`) or the predicate fails, otherwise the
computed row — or the under-ground exception. -/
def psBodyAt (time los : List ℤ) (pitch roll rws status : List ℝ)
    (dist hub_hgt lidar_hgt : ℝ) (azimuths zeniths : Fin 4 → ℝ)
    (J : psJunk) (i : ℕ) : Except String psRow :=
  if i > sub64 los.length 4 ∨ ¬psPredicate time los status J i then
    Except.ok nanRow
  else
    Except.map mkRow (horiz_windspeed
      (fun k => readR pitch J.pitch (i + k))
      (fun k => readR roll J.roll (i + k))
      (fun k => readR rws J.rws (i + k))
      dist hub_hgt lidar_hgt azimuths zeniths)

/-- Run the loop body for indices `0, …, n − 1` in order; the first
exception aborts the whole call (as the C++ exception unwinds `ps`). -/
def exceptRows (f : ℕ → Except String psRow) : ℕ → Except String (List psRow)
  | 0 => Except.ok []
  | n + 1 =>
    match exceptRows f n with
    | Except.error e => Except.error e
    | Except.ok rs =>
      match f n with
      | Except.error e => Except.error e
      | Except.ok r => Except.ok (rs ++ [r])

/-- Shallow embedding of the entry point `ps` (lidar2.cpp, lines
134–225).  The equal-length precheck covers only `time`, `pitch`, `roll`
and `radial_windspeed`; the loop bound `size` is the `los_id` length. -/
def ps (time los : List ℤ) (pitch roll radial_windspeed status : List ℝ)
    (dist hub_hgt lidar_hgt : ℝ) (azimuths zeniths : Fin 4 → ℝ)
    (J : psJunk) : Except String (List psRow) :=
  if ¬(time.length = pitch.length ∧ pitch.length = roll.length ∧
      roll.length = radial_windspeed.length) then
    Except.error "All sizes must be the same."
  else
    exceptRows (psBodyAt time los pitch roll radial_windspeed status
      dist hub_hgt lidar_hgt azimuths zeniths J) los.length

/-- The all-zero junk memory used to instantiate witnesses. -/
def psJunk0 : psJunk :=
  { time := fun _ => 0, los := fun _ => 0, pitch := fun _ => 0,
    roll := fun _ => 0, rws := fun _ => 0, status := fun _ => 0 }

end Lidar2

/-- A double together with the IEEE special values: used to settle the
claims that are about NaN or infinity outcomes of `shear`. -/
inductive F where
  | fin (x : ℝ) : F
  | inf : F
  | ninf : F
  | nan : F
deriving DecidableEq

namespace F

/-- IEEE division on `F` (one signless zero; the sign of `x / 0` follows
the sign of `x`, matching division by `+0`). -/
def div : F → F → F
  | fin x, fin y =>
      if y = 0 then (if x = 0 then nan else if 0 < x then inf else ninf)
      else fin (x / y)
  | fin _, inf => fin 0
  | fin _, ninf => fin 0
  | fin _, nan => nan
  | inf, fin y => if 0 ≤ y then inf else ninf
  | ninf, fin y => if 0 ≤ y then ninf else inf
  | inf, inf => nan
  | inf, ninf => nan
  | ninf, inf => nan
  | ninf, ninf => nan
  | inf, nan => nan
  | ninf, nan => nan
  | nan, _ => nan

/-- IEEE natural logarithm on `F`. -/
def log : F → F
  | fin x => if 0 < x then fin (Real.log x) else if x = 0 then ninf else nan
  | inf => inf
  | ninf => nan
  | nan => nan

end F

/-- The `shear` of lidar2.cpp 48–54 and core.cpp 189–195,
`log(ws_upr / ws_lwr) / log(hgt_upr / hgt_lwr)`, evaluated with IEEE
special-value semantics for the divisions and logarithms. -/
def shearF (ws_upr ws_lwr hgt_upr hgt_lwr : ℝ) : F :=
  F.div (F.log (F.div (F.fin ws_upr) (F.fin ws_lwr)))
        (F.log (F.div (F.fin hgt_upr) (F.fin hgt_lwr)))

/-- `atan2 (sin a) (cos a)` recovers `a` on the principal range. -/
theorem atan2_sin_cos {a : ℝ} (h : a ∈ Set.Ioc (-Real.pi) Real.pi) :
    atan2 (Real.sin a) (Real.cos a) = a := by
  unfold atan2
  rw [Complex.mk_eq_add_mul_I, Complex.ofReal_cos, Complex.ofReal_sin]
  exact Complex.arg_cos_add_sin_mul_I h

end

/-- C1 counterexample: with beam a vertical (`zn_a = 0`) and beam b
horizontal (`zn_b = π/2`), the projection-coefficient determinant
`coef_x,a·coef_y,b − coef_y,a·coef_x,b = 1` is nonzero, yet the solver's
`(Vx, Vy)` does not satisfy beam b's equation: the back-substitution for
`Vy` divides by `coef_y,a = 0`, so `coef_x,b·Vx + coef_y,b·Vy = 0 ≠ 1 =
rws_b`.  (The C++ computes `0.0 / 0.0 = NaN` there; the real-division
embedding yields `0`; the claimed equality fails either way.) -/
theorem c1_counterexample :
    coefX 0 0 0 0 * coefY 0 0 0 (Real.pi / 2) -
        coefY 0 0 0 0 * coefX 0 0 0 (Real.pi / 2) ≠ 0 ∧
    coefX 0 0 0 (Real.pi / 2) *
        (Lidar2.planar_windspeed 0 1 0 0 0 0 0 (Real.pi / 2)).2.1 +
      coefY 0 0 0 (Real.pi / 2) *
        (Lidar2.planar_windspeed 0 1 0 0 0 0 0 (Real.pi / 2)).2.2 ≠ 1 := by
  have hXa : coefX 0 0 0 0 = 1 := by simp [coefX]
  have hYa : coefY 0 0 0 0 = 0 := by simp [coefY]
  have hXb : coefX 0 0 0 (Real.pi / 2) = 0 := by simp [coefX]
  have hYb : coefY 0 0 0 (Real.pi / 2) = 1 := by simp [coefY]
  constructor
  · rw [hXa, hYa, hXb, hYb]
    norm_num
  · have hx : (Lidar2.planar_windspeed 0 1 0 0 0 0 0 (Real.pi / 2)).2.1 =
        (coefY 0 0 0 0 * 1 - coefY 0 0 0 (Real.pi / 2) * 0) /
          (coefY 0 0 0 0 * coefX 0 0 0 (Real.pi / 2) -
            coefY 0 0 0 (Real.pi / 2) * coefX 0 0 0 0) := rfl
    have hy : (Lidar2.planar_windspeed 0 1 0 0 0 0 0 (Real.pi / 2)).2.2 =
        (0 - coefX 0 0 0 0 *
            ((coefY 0 0 0 0 * 1 - coefY 0 0 0 (Real.pi / 2) * 0) /
              (coefY 0 0 0 0 * coefX 0 0 0 (Real.pi / 2) -
                coefY 0 0 0 (Real.pi / 2) * coefX 0 0 0 0))) /
          coefY 0 0 0 0 := rfl
    rw [hx, hy, hXa, hYa, hXb, hYb]
    norm_num

/-- C1 (amended): for both solver variants, whenever the determinant
`coef_x,a·coef_y,b − coef_y,a·coef_x,b` is nonzero AND beam a's
y-coefficient (the divisor of the back-substitution) is nonzero, the
returned `(Vx, Vy)` satisfies both beam equations exactly — with the
inertial-correction terms folded in for the motion-compensated variant. -/
theorem c1_reprojection :
    (∀ rws_a rws_b pitch roll azm_a azm_b zn_a zn_b : ℝ,
      coefY pitch roll azm_a zn_a ≠ 0 →
      coefX pitch roll azm_a zn_a * coefY pitch roll azm_b zn_b -
          coefY pitch roll azm_a zn_a * coefX pitch roll azm_b zn_b ≠ 0 →
      coefX pitch roll azm_a zn_a *
          (Lidar2.planar_windspeed rws_a rws_b pitch roll azm_a azm_b zn_a zn_b).2.1 +
        coefY pitch roll azm_a zn_a *
          (Lidar2.planar_windspeed rws_a rws_b pitch roll azm_a azm_b zn_a zn_b).2.2 =
        rws_a ∧
      coefX pitch roll azm_b zn_b *
          (Lidar2.planar_windspeed rws_a rws_b pitch roll azm_a azm_b zn_a zn_b).2.1 +
        coefY pitch roll azm_b zn_b *
          (Lidar2.planar_windspeed rws_a rws_b pitch roll azm_a azm_b zn_a zn_b).2.2 =
        rws_b) ∧
    (∀ rws_a rws_b pitch roll yaw azm_a azm_b zn_a zn_b : ℝ, ∀ Ia Ib : vec3,
      coefY pitch roll azm_a zn_a ≠ 0 →
      coefX pitch roll azm_a zn_a * coefY pitch roll azm_b zn_b -
          coefY pitch roll azm_a zn_a * coefX pitch roll azm_b zn_b ≠ 0 →
      coefX pitch roll azm_a zn_a *
          ((Core.planar_windspeed rws_a rws_b ⟨pitch, roll, yaw⟩
              azm_a azm_b zn_a zn_b Ia Ib).1 - Ia.x) +
        coefY pitch roll azm_a zn_a *
          ((Core.planar_windspeed rws_a rws_b ⟨pitch, roll, yaw⟩
              azm_a azm_b zn_a zn_b Ia Ib).2 - Ia.y) -
        coefZ pitch roll azm_a zn_a * Ia.z = rws_a ∧
      coefX pitch roll azm_b zn_b *
          ((Core.planar_windspeed rws_a rws_b ⟨pitch, roll, yaw⟩
              azm_a azm_b zn_a zn_b Ia Ib).1 - Ib.x) +
        coefY pitch roll azm_b zn_b *
          ((Core.planar_windspeed rws_a rws_b ⟨pitch, roll, yaw⟩
              azm_a azm_b zn_a zn_b Ia Ib).2 - Ib.y) -
        coefZ pitch roll azm_b zn_b * Ib.z = rws_b) := by
  constructor
  · intro rws_a rws_b pitch roll azm_a azm_b zn_a zn_b hb hdet
    have hdet2 : coefY pitch roll azm_a zn_a * coefX pitch roll azm_b zn_b -
        coefY pitch roll azm_b zn_b * coefX pitch roll azm_a zn_a ≠ 0 := by
      intro h
      apply hdet
      linarith
    have hx : (Lidar2.planar_windspeed rws_a rws_b pitch roll
        azm_a azm_b zn_a zn_b).2.1 =
        (coefY pitch roll azm_a zn_a * rws_b -
            coefY pitch roll azm_b zn_b * rws_a) /
          (coefY pitch roll azm_a zn_a * coefX pitch roll azm_b zn_b -
            coefY pitch roll azm_b zn_b * coefX pitch roll azm_a zn_a) := rfl
    have hy : (Lidar2.planar_windspeed rws_a rws_b pitch roll
        azm_a azm_b zn_a zn_b).2.2 =
        (rws_a - coefX pitch roll azm_a zn_a *
            ((coefY pitch roll azm_a zn_a * rws_b -
                coefY pitch roll azm_b zn_b * rws_a) /
              (coefY pitch roll azm_a zn_a * coefX pitch roll azm_b zn_b -
                coefY pitch roll azm_b zn_b * coefX pitch roll azm_a zn_a))) /
          coefY pitch roll azm_a zn_a := rfl
    rw [hx, hy]
    constructor
    · field_simp
      ring
    · field_simp
      ring
  · intro rws_a rws_b pitch roll yaw azm_a azm_b zn_a zn_b Ia Ib ha1 hdet
    have hx : (Core.planar_windspeed rws_a rws_b ⟨pitch, roll, yaw⟩
        azm_a azm_b zn_a zn_b Ia Ib).1 =
        (coefX pitch roll azm_a zn_a * coefY pitch roll azm_b zn_b * Ia.x -
            coefY pitch roll azm_a zn_a * coefX pitch roll azm_b zn_b * Ib.x +
            coefY pitch roll azm_a zn_a * coefY pitch roll azm_b zn_b *
              (Ia.y - Ib.y) -
            coefY pitch roll azm_a zn_a * coefZ pitch roll azm_b zn_b * Ib.z +
            coefZ pitch roll azm_a zn_a * coefY pitch roll azm_b zn_b * Ia.z -
            coefY pitch roll azm_a zn_a * rws_b +
            coefY pitch roll azm_b zn_b * rws_a) /
          (coefX pitch roll azm_a zn_a * coefY pitch roll azm_b zn_b -
            coefY pitch roll azm_a zn_a * coefX pitch roll azm_b zn_b) := rfl
    have hy : (Core.planar_windspeed rws_a rws_b ⟨pitch, roll, yaw⟩
        azm_a azm_b zn_a zn_b Ia Ib).2 =
        (rws_a - coefX pitch roll azm_a zn_a *
            ((Core.planar_windspeed rws_a rws_b ⟨pitch, roll, yaw⟩
                azm_a azm_b zn_a zn_b Ia Ib).1 - Ia.x) +
          coefZ pitch roll azm_a zn_a * Ia.z) /
          coefY pitch roll azm_a zn_a + Ia.y := rfl
    rw [hy, hx]
    constructor
    · field_simp
      ring
    · field_simp
      ring

/-- C1 witness: the amended re-projection theorem instantiated with beam
a horizontal (`zn_a = π/2`) and beam b vertical (`zn_b = 0`), radial
speeds 3 and 5, zero attitude and zero inertial corrections. -/
theorem c1_reprojection_witness :
    (coefY 0 0 0 (Real.pi / 2) ≠ 0 ∧
      coefX 0 0 0 (Real.pi / 2) * coefY 0 0 0 0 -
          coefY 0 0 0 (Real.pi / 2) * coefX 0 0 0 0 ≠ 0 ∧
      (coefX 0 0 0 (Real.pi / 2) *
          (Lidar2.planar_windspeed 3 5 0 0 0 0 (Real.pi / 2) 0).2.1 +
        coefY 0 0 0 (Real.pi / 2) *
          (Lidar2.planar_windspeed 3 5 0 0 0 0 (Real.pi / 2) 0).2.2 = 3 ∧
        coefX 0 0 0 0 *
          (Lidar2.planar_windspeed 3 5 0 0 0 0 (Real.pi / 2) 0).2.1 +
        coefY 0 0 0 0 *
          (Lidar2.planar_windspeed 3 5 0 0 0 0 (Real.pi / 2) 0).2.2 = 5)) ∧
    (coefX 0 0 0 (Real.pi / 2) *
        ((Core.planar_windspeed 3 5 ⟨0, 0, 0⟩ 0 0 (Real.pi / 2) 0
            ⟨0, 0, 0⟩ ⟨0, 0, 0⟩).1 - (vec3.mk 0 0 0).x) +
      coefY 0 0 0 (Real.pi / 2) *
        ((Core.planar_windspeed 3 5 ⟨0, 0, 0⟩ 0 0 (Real.pi / 2) 0
            ⟨0, 0, 0⟩ ⟨0, 0, 0⟩).2 - (vec3.mk 0 0 0).y) -
      coefZ 0 0 0 (Real.pi / 2) * (vec3.mk 0 0 0).z = 3 ∧
      coefX 0 0 0 0 *
        ((Core.planar_windspeed 3 5 ⟨0, 0, 0⟩ 0 0 (Real.pi / 2) 0
            ⟨0, 0, 0⟩ ⟨0, 0, 0⟩).1 - (vec3.mk 0 0 0).x) +
      coefY 0 0 0 0 *
        ((Core.planar_windspeed 3 5 ⟨0, 0, 0⟩ 0 0 (Real.pi / 2) 0
            ⟨0, 0, 0⟩ ⟨0, 0, 0⟩).2 - (vec3.mk 0 0 0).y) -
      coefZ 0 0 0 0 * (vec3.mk 0 0 0).z = 5) := by
  have hb : coefY 0 0 0 (Real.pi / 2) ≠ 0 := by
    simp [coefY]
  have hdet : coefX 0 0 0 (Real.pi / 2) * coefY 0 0 0 0 -
      coefY 0 0 0 (Real.pi / 2) * coefX 0 0 0 0 ≠ 0 := by
    simp [coefX, coefY]
  exact ⟨⟨hb, hdet, c1_reprojection.1 3 5 0 0 0 0 (Real.pi / 2) 0 hb hdet⟩,
    c1_reprojection.2 3 5 0 0 0 0 0 (Real.pi / 2) 0 ⟨0, 0, 0⟩ ⟨0, 0, 0⟩ hb hdet⟩

/-- When `validate_and_sort` accepts a window it returns exactly the
slot-sorted window. -/
theorem validate_eq_some_of_isSome (w0 : ℤ → Core.sample)
    (b : Fin 4 → Core.sample)
    (h : (Core.validate_and_sort w0 b).isSome = true) :
    Core.validate_and_sort w0 b = some (Core.sorted_window w0 b) := by
  unfold Core.validate_and_sort at h ⊢
  by_cases h1 : ¬(Core.valid_los_id (b 0) ∧ Core.valid_los_id (b 1) ∧
      Core.valid_los_id (b 2) ∧ Core.valid_los_id (b 3))
  · rw [if_pos h1] at h
    simp at h
  · rw [if_neg h1] at h ⊢
    by_cases h2 : ¬(Core.foundFlags b 0 = true ∧ Core.foundFlags b 1 = true ∧
        Core.foundFlags b 2 = true ∧ Core.foundFlags b 3 = true)
    · rw [if_pos h2] at h
      simp at h
    · rw [if_neg h2]

/-- On an accepted window, the loop body emits the assembled descriptor
exactly when at least one plane is valid. -/
theorem processWindow_eq_of_isSome (J : Core.junk_state)
    (distance lidar_hgt : ℝ) (az zn : Fin 4 → ℝ) (b : Fin 4 → Core.sample)
    (h : (Core.validate_and_sort J.win b).isSome = true) :
    Core.processWindow J distance lidar_hgt az zn b =
      if (Core.window_desc J distance lidar_hgt az zn b).upper.status = 1 ∨
          (Core.window_desc J distance lidar_hgt az zn b).lower.status = 1 then
        some (Core.window_desc J distance lidar_hgt az zn b)
      else
        none := by
  unfold Core.processWindow
  rw [validate_eq_some_of_isSome _ _ h]
  rfl

/-- C4: when either beam's status is 0 the plane descriptor builder
returns `status = 0` with `spd`, `dir`, `x`, `y` set to the NaN sentinel
and performs no wind computation — but, contrary to the claim, `hgt` is
left unassigned (the code assigns `spd` twice and `hgt` never), so it
keeps the uninitialised stack content (`some 7` here, not NaN).  When
both statuses are nonzero the returned status is 1. -/
theorem c4_invalid_beam_leaves_hgt_unassigned :
    (Core.calc_plane_desc Core.test_junk.descU (Core.test_sample 0 0)
        (Core.test_sample 1 1) 1 1 0 0 0 0).status = 0 ∧
    (Core.calc_plane_desc Core.test_junk.descU (Core.test_sample 0 0)
        (Core.test_sample 1 1) 1 1 0 0 0 0).spd = none ∧
    (Core.calc_plane_desc Core.test_junk.descU (Core.test_sample 0 0)
        (Core.test_sample 1 1) 1 1 0 0 0 0).dir = none ∧
    (Core.calc_plane_desc Core.test_junk.descU (Core.test_sample 0 0)
        (Core.test_sample 1 1) 1 1 0 0 0 0).x = none ∧
    (Core.calc_plane_desc Core.test_junk.descU (Core.test_sample 0 0)
        (Core.test_sample 1 1) 1 1 0 0 0 0).y = none ∧
    (Core.calc_plane_desc Core.test_junk.descU (Core.test_sample 0 0)
        (Core.test_sample 1 1) 1 1 0 0 0 0).hgt = some 7 ∧
    (Core.calc_plane_desc Core.test_junk.descU (Core.test_sample 0 1)
        (Core.test_sample 1 1) 1 1 0 0 0 0).status = 1 :=
  ⟨rfl, rfl, rfl, rfl, rfl, rfl, rfl⟩

/-- C6: on every window the reorder aggregator accepts, the assembled
descriptor has `shear`/`veer` computed from the planes' speed, direction
and height if and only if both plane statuses are 1; otherwise they are
the NaN sentinel; and the descriptor is appended to the output exactly
when at least one plane has status 1. -/
theorem c6_shear_veer_iff_both_valid :
    ∀ (J : Core.junk_state) (distance lidar_hgt : ℝ) (az zn : Fin 4 → ℝ)
      (b : Fin 4 → Core.sample),
      (Core.validate_and_sort J.win b).isSome = true →
      ((Core.window_desc J distance lidar_hgt az zn b).upper.status = 1 ∧
          (Core.window_desc J distance lidar_hgt az zn b).lower.status = 1 →
        (Core.window_desc J distance lidar_hgt az zn b).shear =
          some (Core.shear
            ((Core.window_desc J distance lidar_hgt az zn b).upper.spd.getD 0)
            ((Core.window_desc J distance lidar_hgt az zn b).lower.spd.getD 0)
            ((Core.window_desc J distance lidar_hgt az zn b).upper.hgt.getD 0)
            ((Core.window_desc J distance lidar_hgt az zn b).lower.hgt.getD 0)) ∧
        (Core.window_desc J distance lidar_hgt az zn b).veer =
          some (Core.veer
            ((Core.window_desc J distance lidar_hgt az zn b).upper.dir.getD 0)
            ((Core.window_desc J distance lidar_hgt az zn b).lower.dir.getD 0)
            ((Core.window_desc J distance lidar_hgt az zn b).upper.hgt.getD 0)
            ((Core.window_desc J distance lidar_hgt az zn b).lower.hgt.getD 0))) ∧
      (¬((Core.window_desc J distance lidar_hgt az zn b).upper.status = 1 ∧
          (Core.window_desc J distance lidar_hgt az zn b).lower.status = 1) →
        (Core.window_desc J distance lidar_hgt az zn b).shear = none ∧
        (Core.window_desc J distance lidar_hgt az zn b).veer = none) ∧
      (Core.processWindow J distance lidar_hgt az zn b =
          some (Core.window_desc J distance lidar_hgt az zn b) ↔
        ((Core.window_desc J distance lidar_hgt az zn b).upper.status = 1 ∨
          (Core.window_desc J distance lidar_hgt az zn b).lower.status = 1)) := by
  intro J distance lidar_hgt az zn b hval
  refine ⟨?_, ?_, ?_⟩
  · simp only [Core.window_desc, Core.calc_windfield_desc]
    split_ifs with hc
    · intro _
      exact ⟨rfl, rfl⟩
    · intro hcontra
      exact absurd hcontra hc
  · simp only [Core.window_desc, Core.calc_windfield_desc]
    split_ifs with hc
    · intro hcontra
      exact absurd hc hcontra
    · intro _
      exact ⟨rfl, rfl⟩
  · rw [processWindow_eq_of_isSome J distance lidar_hgt az zn b hval]
    by_cases he : (Core.window_desc J distance lidar_hgt az zn b).upper.status = 1 ∨
        (Core.window_desc J distance lidar_hgt az zn b).lower.status = 1
    · simp [he]
    · simp [he]

/-- C6 witness: a window with raw order `0,1,2,3`, beam 1 invalid and
the lower pair valid; the upper plane is invalid, so `shear`/`veer` are
the NaN sentinel, yet the descriptor is still emitted. -/
theorem c6_shear_veer_witness :
    (Core.validate_and_sort Core.test_junk.win (fun k =>
        Core.test_sample k.val (if k.val = 1 then 0 else 1))).isSome = true ∧
    (¬((Core.window_desc Core.test_junk 1 1 (fun _ => 0) (fun _ => 0)
          (fun k => Core.test_sample k.val (if k.val = 1 then 0 else 1))).upper.status = 1 ∧
        (Core.window_desc Core.test_junk 1 1 (fun _ => 0) (fun _ => 0)
          (fun k => Core.test_sample k.val (if k.val = 1 then 0 else 1))).lower.status = 1) →
      (Core.window_desc Core.test_junk 1 1 (fun _ => 0) (fun _ => 0)
        (fun k => Core.test_sample k.val (if k.val = 1 then 0 else 1))).shear = none ∧
      (Core.window_desc Core.test_junk 1 1 (fun _ => 0) (fun _ => 0)
        (fun k => Core.test_sample k.val (if k.val = 1 then 0 else 1))).veer = none) ∧
    (Core.processWindow Core.test_junk 1 1 (fun _ => 0) (fun _ => 0)
        (fun k => Core.test_sample k.val (if k.val = 1 then 0 else 1)) =
        some (Core.window_desc Core.test_junk 1 1 (fun _ => 0) (fun _ => 0)
          (fun k => Core.test_sample k.val (if k.val = 1 then 0 else 1))) ↔
      ((Core.window_desc Core.test_junk 1 1 (fun _ => 0) (fun _ => 0)
          (fun k => Core.test_sample k.val (if k.val = 1 then 0 else 1))).upper.status = 1 ∨
        (Core.window_desc Core.test_junk 1 1 (fun _ => 0) (fun _ => 0)
          (fun k => Core.test_sample k.val (if k.val = 1 then 0 else 1))).lower.status = 1)) := by
  have hval : (Core.validate_and_sort Core.test_junk.win (fun k =>
      Core.test_sample k.val (if k.val = 1 then 0 else 1))).isSome = true := by
    rfl
  exact ⟨hval,
    (c6_shear_veer_iff_both_valid Core.test_junk 1 1 (fun _ => 0) (fun _ => 0)
      (fun k => Core.test_sample k.val (if k.val = 1 then 0 else 1)) hval).2.1,
    (c6_shear_veer_iff_both_valid Core.test_junk 1 1 (fun _ => 0) (fun _ => 0)
      (fun k => Core.test_sample k.val (if k.val = 1 then 0 else 1)) hval).2.2⟩

/-- The length of a `filterMap` counts the inputs the function keeps. -/
theorem length_filterMap_eq_countP (f : ℕ → Option Core.windfield_desc)
    (l : List ℕ) :
    (l.filterMap f).length = l.countP (fun a => (f a).isSome) := by
  induction l with
  | nil => rfl
  | cons a t ih =>
    cases h : f a <;> simp [List.filterMap_cons, h, List.countP_cons, ih]

/-- A count and the count of its complement add up to the length. -/
theorem countP_add_countP_not (p : ℕ → Bool) (l : List ℕ) :
    l.countP p + l.countP (fun a => !(p a)) = l.length := by
  induction l with
  | nil => rfl
  | cons a t ih =>
    cases h : p a <;> simp [List.countP_cons, h] <;> omega

/-- The `found` flags of `validate_and_sort`: index `k` was marked iff
some sample of the window has `los_id = k`. -/
theorem foundFlags_true_iff (b : Fin 4 → Core.sample) (k : ℤ) :
    Core.foundFlags b k = true ↔
      (k = (b 0).los_id ∨ k = (b 1).los_id ∨
        k = (b 2).los_id ∨ k = (b 3).los_id) := by
  unfold Core.foundFlags
  simp only [Function.update_apply]
  split_ifs <;> simp_all

/-- `validate_and_sort` accepts exactly when the range check and all four
`found` flags pass. -/
theorem validate_isSome_iff_checks (w0 : ℤ → Core.sample)
    (b : Fin 4 → Core.sample) :
    (Core.validate_and_sort w0 b).isSome = true ↔
      ((Core.valid_los_id (b 0) ∧ Core.valid_los_id (b 1) ∧
        Core.valid_los_id (b 2) ∧ Core.valid_los_id (b 3)) ∧
       (Core.foundFlags b 0 = true ∧ Core.foundFlags b 1 = true ∧
        Core.foundFlags b 2 = true ∧ Core.foundFlags b 3 = true)) := by
  unfold Core.validate_and_sort
  split_ifs with h1 h2 <;> simp_all

/-- Four integers in `[0, 4)` that jointly cover `0, 1, 2, 3` are a
permutation of `[0, 1, 2, 3]`. -/
theorem los_perm_of_checks (i0 i1 i2 i3 : ℤ)
    (hr0 : 0 ≤ i0 ∧ i0 < 4) (hr1 : 0 ≤ i1 ∧ i1 < 4)
    (hr2 : 0 ≤ i2 ∧ i2 < 4) (hr3 : 0 ≤ i3 ∧ i3 < 4)
    (hf : ∀ k : ℤ, k = 0 ∨ k = 1 ∨ k = 2 ∨ k = 3 →
      k = i0 ∨ k = i1 ∨ k = i2 ∨ k = i3) :
    [i0, i1, i2, i3].Perm [0, 1, 2, 3] := by
  have hnodup : ({0, 1, 2, 3} : Multiset ℤ).Nodup := by decide
  have hsub : ({0, 1, 2, 3} : Multiset ℤ) ⊆ ↑[i0, i1, i2, i3] := by
    intro a ha
    simp only [Multiset.insert_eq_cons, Multiset.mem_cons,
      Multiset.mem_singleton] at ha
    have := hf a (by tauto)
    simp only [Multiset.mem_coe, List.mem_cons, List.mem_singleton]
    tauto
  have hle := (Multiset.le_iff_subset hnodup).mpr hsub
  have hcard : Multiset.card (↑[i0, i1, i2, i3] : Multiset ℤ) ≤
      Multiset.card ({0, 1, 2, 3} : Multiset ℤ) := by simp
  have heq := Multiset.eq_of_le_of_card_le hle hcard
  have h2 : (↑[i0, i1, i2, i3] : Multiset ℤ) = ↑[(0 : ℤ), 1, 2, 3] := by
    rw [← heq]
    rfl
  exact Multiset.coe_eq_coe.mp h2

/-- C2: the reorder-policy aggregator accepts a 4-sample window iff its
`los_id`s are exactly a permutation of `{0, 1, 2, 3}`; each accepted
sample lands in slot `los_id` regardless of raw order; and when every
stride-1 window is a valid permutation the output row count is `n − 3`
minus the number of windows on which neither plane has status 1
(rejected windows emit nothing by the definition of the aggregator). -/
theorem c2_reorder_windower :
    (∀ (w0 : ℤ → Core.sample) (b : Fin 4 → Core.sample),
      ((Core.validate_and_sort w0 b).isSome = true ↔
        [(b 0).los_id, (b 1).los_id, (b 2).los_id, (b 3).los_id].Perm
          [0, 1, 2, 3]) ∧
      ((Core.validate_and_sort w0 b).isSome = true →
        ∀ k : Fin 4, Core.sorted_window w0 b ((b k).los_id) = b k)) ∧
    (∀ (J : Core.junk_state) (beams : List Core.sample)
        (distance lidar_hgt : ℝ) (az zn : Fin 4 → ℝ),
      (∀ i, i + 4 ≤ beams.length →
        (Core.validate_and_sort J.win (Core.windowAt J beams i)).isSome = true) →
      (Core.core_windfield_descs J beams distance lidar_hgt az zn).length =
        (beams.length - 3) -
          (List.range (beams.length - 3)).countP (fun i =>
            decide (¬((Core.window_desc J distance lidar_hgt az zn
                  (Core.windowAt J beams i)).upper.status = 1 ∨
                (Core.window_desc J distance lidar_hgt az zn
                  (Core.windowAt J beams i)).lower.status = 1)))) := by
  have hperm_iff : ∀ (w0 : ℤ → Core.sample) (b : Fin 4 → Core.sample),
      (Core.validate_and_sort w0 b).isSome = true ↔
        [(b 0).los_id, (b 1).los_id, (b 2).los_id, (b 3).los_id].Perm
          [0, 1, 2, 3] := by
    intro w0 b
    rw [validate_isSome_iff_checks]
    constructor
    · rintro ⟨⟨hr0, hr1, hr2, hr3⟩, hf0, hf1, hf2, hf3⟩
      rw [foundFlags_true_iff] at hf0 hf1 hf2 hf3
      exact los_perm_of_checks _ _ _ _ hr0 hr1 hr2 hr3 (by
        intro k hk
        rcases hk with h | h | h | h <;> subst h <;> assumption)
    · intro hperm
      have hmem : ∀ k : Fin 4, (b k).los_id ∈ [(0 : ℤ), 1, 2, 3] := by
        intro k
        apply hperm.mem_iff.mp
        fin_cases k <;> simp
      have hrange : ∀ k : Fin 4, Core.valid_los_id (b k) := by
        intro k
        have := hmem k
        unfold Core.valid_los_id
        simp only [List.mem_cons, List.mem_nil_iff, or_false] at this
        rcases this with h | h | h | h <;> rw [h] <;> norm_num
      have hfound : ∀ j : ℤ, j ∈ [(0 : ℤ), 1, 2, 3] →
          Core.foundFlags b j = true := by
        intro j hj
        have : j ∈ [(b 0).los_id, (b 1).los_id, (b 2).los_id, (b 3).los_id] :=
          hperm.symm.mem_iff.mp hj
        rw [foundFlags_true_iff]
        simpa using this
      exact ⟨⟨hrange 0, hrange 1, hrange 2, hrange 3⟩,
        hfound 0 (by simp), hfound 1 (by simp), hfound 2 (by simp),
        hfound 3 (by simp)⟩
  constructor
  · intro w0 b
    refine ⟨hperm_iff w0 b, ?_⟩
    intro h k
    have hperm := (hperm_iff w0 b).mp h
    have hnd : [(b 0).los_id, (b 1).los_id, (b 2).los_id, (b 3).los_id].Nodup :=
      hperm.nodup_iff.mpr (by decide)
    obtain ⟨h01, h02, h03, h12, h13, h23⟩ :
        (b 0).los_id ≠ (b 1).los_id ∧ (b 0).los_id ≠ (b 2).los_id ∧
        (b 0).los_id ≠ (b 3).los_id ∧ (b 1).los_id ≠ (b 2).los_id ∧
        (b 1).los_id ≠ (b 3).los_id ∧ (b 2).los_id ≠ (b 3).los_id := by
      simp only [List.nodup_cons, List.mem_cons, List.mem_singleton,
        List.nodup_nil, and_true, not_or] at hnd
      tauto
    fin_cases k
    · show Core.sorted_window w0 b ((b 0).los_id) = b 0
      simp only [Core.sorted_window, Function.update_apply]
      rw [if_neg h03, if_neg h02, if_neg h01]
      simp
    · show Core.sorted_window w0 b ((b 1).los_id) = b 1
      simp only [Core.sorted_window, Function.update_apply]
      rw [if_neg h13, if_neg h12]
      simp
    · show Core.sorted_window w0 b ((b 2).los_id) = b 2
      simp only [Core.sorted_window, Function.update_apply]
      rw [if_neg h23]
      simp
    · show Core.sorted_window w0 b ((b 3).los_id) = b 3
      simp [Core.sorted_window, Function.update_apply]
  · intro J beams distance lidar_hgt az zn hall
    unfold Core.core_windfield_descs
    rw [length_filterMap_eq_countP]
    have hcong : ∀ i ∈ List.range (beams.length - 3),
        ((Core.processWindow J distance lidar_hgt az zn
            (Core.windowAt J beams i)).isSome = true ↔
          (!(decide (¬((Core.window_desc J distance lidar_hgt az zn
                (Core.windowAt J beams i)).upper.status = 1 ∨
              (Core.window_desc J distance lidar_hgt az zn
                (Core.windowAt J beams i)).lower.status = 1)))) = true) := by
      intro i hi
      have hi4 : i + 4 ≤ beams.length := by
        have := List.mem_range.mp hi
        omega
      rw [processWindow_eq_of_isSome J distance lidar_hgt az zn _
        (hall i hi4)]
      by_cases he : (Core.window_desc J distance lidar_hgt az zn
          (Core.windowAt J beams i)).upper.status = 1 ∨
          (Core.window_desc J distance lidar_hgt az zn
            (Core.windowAt J beams i)).lower.status = 1
      · simp [he]
      · simp [he]
    rw [List.countP_congr hcong]
    have hsum := countP_add_countP_not (fun i =>
      decide (¬((Core.window_desc J distance lidar_hgt az zn
            (Core.windowAt J beams i)).upper.status = 1 ∨
          (Core.window_desc J distance lidar_hgt az zn
            (Core.windowAt J beams i)).lower.status = 1)))
      (List.range (beams.length - 3))
    rw [List.length_range] at hsum
    have hcomm : (List.range (beams.length - 3)).countP (fun i =>
        !(decide (¬((Core.window_desc J distance lidar_hgt az zn
              (Core.windowAt J beams i)).upper.status = 1 ∨
            (Core.window_desc J distance lidar_hgt az zn
              (Core.windowAt J beams i)).lower.status = 1)))) =
        (List.range (beams.length - 3)).countP (fun a =>
        !((fun i => decide (¬((Core.window_desc J distance lidar_hgt az zn
              (Core.windowAt J beams i)).upper.status = 1 ∨
            (Core.window_desc J distance lidar_hgt az zn
              (Core.windowAt J beams i)).lower.status = 1))) a)) := rfl
    rw [hcomm]
    omega

/-- C2 witness: five samples with `los_id = [0, 1, 2, 3, 0]` and all
statuses good give two valid windows and two output rows. -/
theorem c2_reorder_windower_witness :
    (∀ i, i + 4 ≤ ([Core.test_sample 0 1, Core.test_sample 1 1,
        Core.test_sample 2 1, Core.test_sample 3 1,
        Core.test_sample 0 1] : List Core.sample).length →
      (Core.validate_and_sort Core.test_junk.win
        (Core.windowAt Core.test_junk [Core.test_sample 0 1,
          Core.test_sample 1 1, Core.test_sample 2 1, Core.test_sample 3 1,
          Core.test_sample 0 1] i)).isSome = true) ∧
    (Core.core_windfield_descs Core.test_junk [Core.test_sample 0 1,
        Core.test_sample 1 1, Core.test_sample 2 1, Core.test_sample 3 1,
        Core.test_sample 0 1] 1 1 (fun _ => 0) (fun _ => 0)).length =
      (([Core.test_sample 0 1, Core.test_sample 1 1, Core.test_sample 2 1,
          Core.test_sample 3 1, Core.test_sample 0 1] :
            List Core.sample).length - 3) -
        (List.range (([Core.test_sample 0 1, Core.test_sample 1 1,
            Core.test_sample 2 1, Core.test_sample 3 1,
            Core.test_sample 0 1] : List Core.sample).length - 3)).countP
          (fun i => decide (¬((Core.window_desc Core.test_junk 1 1
                (fun _ => 0) (fun _ => 0)
                (Core.windowAt Core.test_junk [Core.test_sample 0 1,
                  Core.test_sample 1 1, Core.test_sample 2 1,
                  Core.test_sample 3 1, Core.test_sample 0 1] i)).upper.status = 1 ∨
              (Core.window_desc Core.test_junk 1 1
                (fun _ => 0) (fun _ => 0)
                (Core.windowAt Core.test_junk [Core.test_sample 0 1,
                  Core.test_sample 1 1, Core.test_sample 2 1,
                  Core.test_sample 3 1, Core.test_sample 0 1] i)).lower.status =
                1))) := by
  have hall : ∀ i, i + 4 ≤ ([Core.test_sample 0 1, Core.test_sample 1 1,
      Core.test_sample 2 1, Core.test_sample 3 1,
      Core.test_sample 0 1] : List Core.sample).length →
      (Core.validate_and_sort Core.test_junk.win
        (Core.windowAt Core.test_junk [Core.test_sample 0 1,
          Core.test_sample 1 1, Core.test_sample 2 1, Core.test_sample 3 1,
          Core.test_sample 0 1] i)).isSome = true := by
    intro i hi
    simp only [List.length_cons, List.length_nil] at hi
    have hub : i ≤ 1 := by omega
    interval_cases i
    · rfl
    · rfl
  exact ⟨hall, c2_reorder_windower.2 Core.test_junk _ 1 1
    (fun _ => 0) (fun _ => 0) hall⟩

/-- If every iteration succeeds, the loop collects the rows in order. -/
theorem exceptRows_ok_of_all (f : ℕ → Except String Lidar2.psRow)
    (g : ℕ → Lidar2.psRow) (n : ℕ) (h : ∀ i < n, f i = Except.ok (g i)) :
    Lidar2.exceptRows f n = Except.ok ((List.range n).map g) := by
  induction n with
  | zero => rfl
  | succ m ih =>
    have hm : ∀ i < m, f i = Except.ok (g i) := fun i hi => h i (by omega)
    unfold Lidar2.exceptRows
    rw [ih hm, h m (by omega)]
    simp [List.range_succ]

/-- A successful loop produces one row per index. -/
theorem exceptRows_ok_length (f : ℕ → Except String Lidar2.psRow) (n : ℕ)
    (rows : List Lidar2.psRow) (h : Lidar2.exceptRows f n = Except.ok rows) :
    rows.length = n := by
  induction n generalizing rows with
  | zero =>
    unfold Lidar2.exceptRows at h
    cases h
    rfl
  | succ m ih =>
    unfold Lidar2.exceptRows at h
    cases he : Lidar2.exceptRows f m with
    | error e =>
      rw [he] at h
      cases h
    | ok rs =>
      rw [he] at h
      cases hf : f m with
      | error e =>
        rw [hf] at h
        cases h
      | ok r =>
        rw [hf] at h
        cases h
        have := ih rs he
        simp [this]

/-- A failing loop's error message comes from some iteration. -/
theorem exceptRows_error_exists (f : ℕ → Except String Lidar2.psRow) (n : ℕ)
    (e : String) (h : Lidar2.exceptRows f n = Except.error e) :
    ∃ i, i < n ∧ f i = Except.error e := by
  induction n with
  | zero =>
    unfold Lidar2.exceptRows at h
    cases h
  | succ m ih =>
    unfold Lidar2.exceptRows at h
    cases he : Lidar2.exceptRows f m with
    | error e2 =>
      rw [he] at h
      cases h
      obtain ⟨i, hi, hfi⟩ := ih he
      exact ⟨i, by omega, hfi⟩
    | ok rs =>
      rw [he] at h
      cases hf : f m with
      | error e2 =>
        rw [hf] at h
        cases h
        exact ⟨m, by omega, hf⟩
      | ok r =>
        rw [hf] at h
        cases h

/-- The loop body's only exception is the under-ground message. -/
theorem psBodyAt_error_msg (time los : List ℤ)
    (pitch roll rws status : List ℝ) (dist hub_hgt lidar_hgt : ℝ)
    (azimuths zeniths : Fin 4 → ℝ) (J : Lidar2.psJunk) (i : ℕ) (e : String)
    (h : Lidar2.psBodyAt time los pitch roll rws status dist hub_hgt
      lidar_hgt azimuths zeniths J i = Except.error e) :
    e = "One or more beams are under ground/water." := by
  unfold Lidar2.psBodyAt at h
  by_cases h1 : i > Lidar2.sub64 los.length 4 ∨
      ¬Lidar2.psPredicate time los status J i
  · rw [if_pos h1] at h
    cases h
  · rw [if_neg h1] at h
    cases hh : Lidar2.horiz_windspeed
        (fun k => Lidar2.readR pitch J.pitch (i + k))
        (fun k => Lidar2.readR roll J.roll (i + k))
        (fun k => Lidar2.readR rws J.rws (i + k))
        dist hub_hgt lidar_hgt azimuths zeniths with
    | error e2 =>
      rw [hh] at h
      simp only [Except.map] at h
      cases h
      unfold Lidar2.horiz_windspeed at hh
      by_cases h2 : Lidar2.sample_hgt hub_hgt lidar_hgt dist
          (Lidar2.readR pitch J.pitch (i + (0 : Fin 4)))
          (Lidar2.readR roll J.roll (i + (0 : Fin 4)))
          (azimuths 0) (zeniths 0) < 0 ∨
          Lidar2.sample_hgt hub_hgt lidar_hgt dist
          (Lidar2.readR pitch J.pitch (i + (1 : Fin 4)))
          (Lidar2.readR roll J.roll (i + (1 : Fin 4)))
          (azimuths 1) (zeniths 1) < 0 ∨
          Lidar2.sample_hgt hub_hgt lidar_hgt dist
          (Lidar2.readR pitch J.pitch (i + (2 : Fin 4)))
          (Lidar2.readR roll J.roll (i + (2 : Fin 4)))
          (azimuths 2) (zeniths 2) < 0 ∨
          Lidar2.sample_hgt hub_hgt lidar_hgt dist
          (Lidar2.readR pitch J.pitch (i + (3 : Fin 4)))
          (Lidar2.readR roll J.roll (i + (3 : Fin 4)))
          (azimuths 3) (zeniths 3) < 0
      · rw [if_pos h2] at hh
        cases hh
        rfl
      · rw [if_neg h2] at hh
        cases hh
    | ok v =>
      rw [hh] at h
      simp only [Except.map] at h
      cases h

/-- The `size_t` wrap-around subtraction agrees with plain subtraction
for in-range sizes of at least 4. -/
theorem sub64_eq_sub (n : ℕ) (h4 : 4 ≤ n) (h64 : n < 2 ^ 64) :
    Lidar2.sub64 n 4 = n - 4 := by
  unfold Lidar2.sub64
  have hsplit : n + (2 ^ 64 - 4) = (n - 4) + 1 * 2 ^ 64 := by omega
  rw [hsplit, Nat.add_mul_mod_self_right]
  exact Nat.mod_eq_of_lt (by omega)

/-- The precheck failure of `ps` is equivalent to a length mismatch
among exactly the `time`, `pitch`, `roll` and `radial_windspeed`
columns. -/
theorem ps_precheck_error_iff (time los : List ℤ)
    (pitch roll rws status : List ℝ) (dist hub_hgt lidar_hgt : ℝ)
    (azimuths zeniths : Fin 4 → ℝ) (J : Lidar2.psJunk) :
    Lidar2.ps time los pitch roll rws status dist hub_hgt lidar_hgt
        azimuths zeniths J = Except.error "All sizes must be the same." ↔
      ¬(time.length = pitch.length ∧ pitch.length = roll.length ∧
        roll.length = rws.length) := by
  unfold Lidar2.ps
  by_cases h1 : ¬(time.length = pitch.length ∧ pitch.length = roll.length ∧
      roll.length = rws.length)
  · rw [if_pos h1]
    simp [h1]
  · rw [if_neg h1]
    constructor
    · intro h
      obtain ⟨i, _, hfi⟩ := exceptRows_error_exists _ _ _ h
      have := psBodyAt_error_msg _ _ _ _ _ _ _ _ _ _ _ _ _ _ hfi
      simp at this
    · intro h
      exact absurd h h1

/-- A completed `ps` call returns one row per `los_id` entry. -/
theorem ps_ok_length (time los : List ℤ) (pitch roll rws status : List ℝ)
    (dist hub_hgt lidar_hgt : ℝ) (azimuths zeniths : Fin 4 → ℝ)
    (J : Lidar2.psJunk) (rows : List Lidar2.psRow)
    (h : Lidar2.ps time los pitch roll rws status dist hub_hgt lidar_hgt
      azimuths zeniths J = Except.ok rows) :
    rows.length = los.length := by
  unfold Lidar2.ps at h
  by_cases h1 : ¬(time.length = pitch.length ∧ pitch.length = roll.length ∧
      roll.length = rws.length)
  · rw [if_pos h1] at h
    cases h
  · rw [if_neg h1] at h
    exact exceptRows_ok_length _ _ _ h

/-- A fully valid 4-sample window whose beams point under ground
(`pitch = −π/2`): the strict-order aggregator throws instead of
producing output rows. -/
theorem ps_under_ground_example :
    Lidar2.ps [0, 0, 0, 0] [0, 1, 2, 3]
      [-(Real.pi / 2), -(Real.pi / 2), -(Real.pi / 2), -(Real.pi / 2)]
      [0, 0, 0, 0] [0, 0, 0, 0] [1, 1, 1, 1] 1 0 0
      (fun _ => 0) (fun _ => 0) Lidar2.psJunk0 =
      Except.error "One or more beams are under ground/water." := by
  have hf0 : Lidar2.psBodyAt [0, 0, 0, 0] [0, 1, 2, 3]
      [-(Real.pi / 2), -(Real.pi / 2), -(Real.pi / 2), -(Real.pi / 2)]
      [0, 0, 0, 0] [0, 0, 0, 0] [1, 1, 1, 1] 1 0 0
      (fun _ => 0) (fun _ => 0) Lidar2.psJunk0 0 =
      Except.error "One or more beams are under ground/water." := by
    have hpred : Lidar2.psPredicate [0, 0, 0, 0] [0, 1, 2, 3] [1, 1, 1, 1]
        Lidar2.psJunk0 0 := by
      refine ⟨by decide, ⟨rfl, rfl, rfl, rfl⟩, by decide⟩
    have hguard : ¬((0 : ℕ) > Lidar2.sub64 ([0, 1, 2, 3] : List ℤ).length 4 ∨
        ¬Lidar2.psPredicate [0, 0, 0, 0] [0, 1, 2, 3] [1, 1, 1, 1]
          Lidar2.psJunk0 0) := by
      simp only [not_or, not_not]
      exact ⟨by omega, hpred⟩
    unfold Lidar2.psBodyAt
    rw [if_neg hguard]
    have hread : Lidar2.readR
        [-(Real.pi / 2), -(Real.pi / 2), -(Real.pi / 2), -(Real.pi / 2)]
        Lidar2.psJunk0.pitch (0 + ((0 : Fin 4) : ℕ)) = -(Real.pi / 2) := rfl
    have hunder : Lidar2.sample_hgt 0 0 1
        (Lidar2.readR
          [-(Real.pi / 2), -(Real.pi / 2), -(Real.pi / 2), -(Real.pi / 2)]
          Lidar2.psJunk0.pitch (0 + ((0 : Fin 4) : ℕ)))
        (Lidar2.readR [0, 0, 0, 0] Lidar2.psJunk0.roll (0 + ((0 : Fin 4) : ℕ)))
        ((fun _ => (0 : ℝ)) (0 : Fin 4)) ((fun _ => (0 : ℝ)) (0 : Fin 4)) <
        0 := by
      rw [hread]
      show Lidar2.sample_hgt 0 0 1 (-(Real.pi / 2))
        (Lidar2.readR [0, 0, 0, 0] Lidar2.psJunk0.roll (0 + ((0 : Fin 4) : ℕ)))
        0 0 < 0
      have hroll : Lidar2.readR [0, 0, 0, 0] Lidar2.psJunk0.roll
          (0 + ((0 : Fin 4) : ℕ)) = 0 := rfl
      rw [hroll]
      unfold Lidar2.sample_hgt
      simp [Real.sin_neg, Real.sin_pi_div_two]
    unfold Lidar2.horiz_windspeed
    rw [if_pos (Or.inl hunder)]
    rfl
  unfold Lidar2.ps
  rw [if_neg (by simp)]
  simp only [List.length_cons, List.length_nil]
  simp [Lidar2.exceptRows, hf0]

/-- C3 counterexample: an input of length 4 (all columns equal length)
whose single window passes every predicate check but points under
ground; `ps` raises the under-ground exception, so no output columns of
length 4 are produced, refuting "for every input of length n the
aggregator produces output columns of length exactly n". -/
theorem c3_counterexample :
    Lidar2.ps [0, 0, 0, 0] [0, 1, 2, 3]
      [-(Real.pi / 2), -(Real.pi / 2), -(Real.pi / 2), -(Real.pi / 2)]
      [0, 0, 0, 0] [0, 0, 0, 0] [1, 1, 1, 1] 1 0 0
      (fun _ => 0) (fun _ => 0) Lidar2.psJunk0 =
      Except.error "One or more beams are under ground/water." :=
  ps_under_ground_example

open scoped Classical in
/-- C3 (amended): for inputs whose six columns all have the same length
`n` with `4 ≤ n < 2^64`, and in which no window that passes the
predicate yields a negative beam height (the under-ground exception),
the strict-order aggregator returns exactly `n` rows, one per input
index; row `i` is all-NaN unless the window `i..i+3` exists and
satisfies the `los_id` order, status and duration checks, in which case
it holds the computed windfield values.  (For `n < 4` the unsigned
`size - 4` guard underflows and the loop reads out of bounds; the
under-ground restriction is forced by the counterexample.) -/
theorem c3_strict_order_rows
    (time los : List ℤ) (pitch roll rws status : List ℝ)
    (dist hub_hgt lidar_hgt : ℝ) (az zn : Fin 4 → ℝ) (J : Lidar2.psJunk)
    (n : ℕ) (ht : time.length = n) (hl : los.length = n)
    (hp : pitch.length = n) (hr : roll.length = n) (hw : rws.length = n)
    (hs : status.length = n) (hn4 : 4 ≤ n) (hn64 : n < 2 ^ 64)
    (hsafe : ∀ i, i + 4 ≤ n → Lidar2.psPredicate time los status J i →
      ∀ k : Fin 4, 0 ≤ Lidar2.sample_hgt hub_hgt lidar_hgt dist
        (Lidar2.readR pitch J.pitch (i + k)) (Lidar2.readR roll J.roll (i + k))
        (az k) (zn k)) :
    Lidar2.ps time los pitch roll rws status dist hub_hgt lidar_hgt az zn J =
      Except.ok ((List.range n).map (fun i =>
        if i + 4 ≤ n ∧ Lidar2.psPredicate time los status J i then
          Lidar2.mkRow (Lidar2.horiz_windspeed_values
            (fun k => Lidar2.readR pitch J.pitch (i + k))
            (fun k => Lidar2.readR roll J.roll (i + k))
            (fun k => Lidar2.readR rws J.rws (i + k))
            dist hub_hgt lidar_hgt az zn)
        else Lidar2.nanRow)) ∧
    ((List.range n).map (fun i =>
        if i + 4 ≤ n ∧ Lidar2.psPredicate time los status J i then
          Lidar2.mkRow (Lidar2.horiz_windspeed_values
            (fun k => Lidar2.readR pitch J.pitch (i + k))
            (fun k => Lidar2.readR roll J.roll (i + k))
            (fun k => Lidar2.readR rws J.rws (i + k))
            dist hub_hgt lidar_hgt az zn)
        else Lidar2.nanRow)).length = n := by
  constructor
  · unfold Lidar2.ps
    rw [if_neg (by simp [ht, hp, hr, hw])]
    rw [hl]
    apply exceptRows_ok_of_all
    intro i hi
    have hguard_eq : Lidar2.sub64 los.length 4 = n - 4 := by
      rw [hl]
      exact sub64_eq_sub n hn4 hn64
    by_cases hcase : i + 4 ≤ n ∧ Lidar2.psPredicate time los status J i
    · have hg : ¬(i > Lidar2.sub64 los.length 4 ∨
          ¬Lidar2.psPredicate time los status J i) := by
        rw [hguard_eq]
        simp only [not_or, not_lt, not_not]
        refine ⟨by omega, hcase.2⟩
      unfold Lidar2.psBodyAt
      rw [if_neg hg]
      have hok : Lidar2.horiz_windspeed
          (fun k => Lidar2.readR pitch J.pitch (i + k))
          (fun k => Lidar2.readR roll J.roll (i + k))
          (fun k => Lidar2.readR rws J.rws (i + k))
          dist hub_hgt lidar_hgt az zn =
          Except.ok (Lidar2.horiz_windspeed_values
            (fun k => Lidar2.readR pitch J.pitch (i + k))
            (fun k => Lidar2.readR roll J.roll (i + k))
            (fun k => Lidar2.readR rws J.rws (i + k))
            dist hub_hgt lidar_hgt az zn) := by
        unfold Lidar2.horiz_windspeed
        rw [if_neg (by
          simp only [not_or, not_lt]
          exact ⟨hsafe i hcase.1 hcase.2 0, hsafe i hcase.1 hcase.2 1,
            hsafe i hcase.1 hcase.2 2, hsafe i hcase.1 hcase.2 3⟩)]
      rw [hok, if_pos hcase]
      rfl
    · have hg : i > Lidar2.sub64 los.length 4 ∨
          ¬Lidar2.psPredicate time los status J i := by
        rw [hguard_eq]
        by_cases hp4 : i + 4 ≤ n
        · right
          intro hpred
          exact hcase ⟨hp4, hpred⟩
        · left
          omega
      unfold Lidar2.psBodyAt
      rw [if_pos hg, if_neg hcase]
  · simp

open scoped Classical in
/-- C3 witness: the amended theorem at a concrete length-4 input whose
window is valid and whose beams are 50 m above ground. -/
theorem c3_strict_order_rows_witness :
    Lidar2.ps [0, 0, 0, 0] [0, 1, 2, 3] [0, 0, 0, 0] [0, 0, 0, 0]
        [0, 0, 0, 0] [1, 1, 1, 1] 1 50 0 (fun _ => 0) (fun _ => 0)
        Lidar2.psJunk0 =
      Except.ok ((List.range 4).map (fun i =>
        if i + 4 ≤ 4 ∧ Lidar2.psPredicate [0, 0, 0, 0] [0, 1, 2, 3]
            [1, 1, 1, 1] Lidar2.psJunk0 i then
          Lidar2.mkRow (Lidar2.horiz_windspeed_values
            (fun k => Lidar2.readR [0, 0, 0, 0] Lidar2.psJunk0.pitch (i + k))
            (fun k => Lidar2.readR [0, 0, 0, 0] Lidar2.psJunk0.roll (i + k))
            (fun k => Lidar2.readR [0, 0, 0, 0] Lidar2.psJunk0.rws (i + k))
            1 50 0 (fun _ => 0) (fun _ => 0))
        else Lidar2.nanRow)) ∧
    ((List.range 4).map (fun i =>
        if i + 4 ≤ 4 ∧ Lidar2.psPredicate [0, 0, 0, 0] [0, 1, 2, 3]
            [1, 1, 1, 1] Lidar2.psJunk0 i then
          Lidar2.mkRow (Lidar2.horiz_windspeed_values
            (fun k => Lidar2.readR [0, 0, 0, 0] Lidar2.psJunk0.pitch (i + k))
            (fun k => Lidar2.readR [0, 0, 0, 0] Lidar2.psJunk0.roll (i + k))
            (fun k => Lidar2.readR [0, 0, 0, 0] Lidar2.psJunk0.rws (i + k))
            1 50 0 (fun _ => 0) (fun _ => 0))
        else Lidar2.nanRow)).length = 4 := by
  apply c3_strict_order_rows
  · rfl
  · rfl
  · rfl
  · rfl
  · rfl
  · rfl
  · norm_num
  · norm_num
  · intro i hi hpred k
    have hi0 : i = 0 := by omega
    subst hi0
    have hpitch : Lidar2.readR [0, 0, 0, 0] Lidar2.psJunk0.pitch
        (0 + (k : ℕ)) = 0 := by
      fin_cases k <;> rfl
    have hroll : Lidar2.readR [0, 0, 0, 0] Lidar2.psJunk0.roll
        (0 + (k : ℕ)) = 0 := by
      fin_cases k <;> rfl
    rw [hpitch, hroll]
    unfold Lidar2.sample_hgt
    simp

/-- C9 counterexample: the static entry point with a `los_id` array of
length 0 against `time`/`pitch`/`roll`/`rws` of length 1 — a mismatched
per-sample array — raises nothing and returns normally, refuting the
claim that any per-sample length mismatch raises in either variant. -/
theorem c9_counterexample :
    (([] : List ℤ).length ≠ ([0] : List ℤ).length) ∧
    Lidar2.ps [0] [] [0] [0] [0] [] 1 1 1 (fun _ => 0) (fun _ => 0)
      Lidar2.psJunk0 = Except.ok [] := by
  constructor
  · decide
  · rfl

/-- C9 (amended): the motion-compensated entry point raises the shape
error exactly when some per-sample column's length differs from the
`time` column's, before any window processing, and nothing else raises
there; the static entry point's precheck compares only the `time`,
`pitch`, `roll` and `radial_windspeed` lengths (raising exactly on their
mismatch), and it can additionally raise the under-ground error during
window processing. -/
theorem c9_shape_error_policy :
    (∀ (J : Core.junk_state) (time : List ℕ) (los_id : List ℤ)
        (rws heave surge pitch roll sv swv hv pv rv yv : List ℝ)
        (status : List ℤ) (distance lidar_hgt : ℝ) (az zn : Fin 4 → ℝ),
      Core.core_windfield_desc J time los_id rws heave surge pitch roll
          sv swv hv pv rv yv status distance lidar_hgt az zn =
          Except.error "All columns must be one dimensional" ↔
        ¬(los_id.length = time.length ∧ rws.length = time.length ∧
          heave.length = time.length ∧ surge.length = time.length ∧
          pitch.length = time.length ∧ roll.length = time.length ∧
          sv.length = time.length ∧ swv.length = time.length ∧
          hv.length = time.length ∧ pv.length = time.length ∧
          rv.length = time.length ∧ yv.length = time.length ∧
          status.length = time.length)) ∧
    (∀ (time los : List ℤ) (pitch roll rws status : List ℝ)
        (dist hub_hgt lidar_hgt : ℝ) (az zn : Fin 4 → ℝ)
        (J : Lidar2.psJunk),
      Lidar2.ps time los pitch roll rws status dist hub_hgt lidar_hgt
          az zn J = Except.error "All sizes must be the same." ↔
        ¬(time.length = pitch.length ∧ pitch.length = roll.length ∧
          roll.length = rws.length)) ∧
    Lidar2.ps [0, 0, 0, 0] [0, 1, 2, 3]
      [-(Real.pi / 2), -(Real.pi / 2), -(Real.pi / 2), -(Real.pi / 2)]
      [0, 0, 0, 0] [0, 0, 0, 0] [1, 1, 1, 1] 1 0 0
      (fun _ => 0) (fun _ => 0) Lidar2.psJunk0 =
      Except.error "One or more beams are under ground/water." := by
  refine ⟨?_, ?_, ps_under_ground_example⟩
  · intro J time los rws heave surge pitch roll sv swv hv pv rv yv status
      d l az zn
    unfold Core.core_windfield_desc
    by_cases hOK : los.length = time.length ∧ rws.length = time.length ∧
        heave.length = time.length ∧ surge.length = time.length ∧
        pitch.length = time.length ∧ roll.length = time.length ∧
        sv.length = time.length ∧ swv.length = time.length ∧
        hv.length = time.length ∧ pv.length = time.length ∧
        rv.length = time.length ∧ yv.length = time.length ∧
        status.length = time.length
    · rw [if_pos hOK]
      simp [hOK]
    · rw [if_neg hOK]
      simp [hOK]
  · intro time los pitch roll rws status dist hub_hgt lidar_hgt az zn J
    exact ps_precheck_error_iff time los pitch roll rws status dist
      hub_hgt lidar_hgt az zn J

/-- C10: the static variant's equal-length check compares only the
`time`, `pitch`, `roll` and `radial_windspeed` arrays, and whenever the
call completes, all six output arrays have length equal to the `los_id`
array's length — also when `los_id` or `status` has a different length
from `time`. -/
theorem c10_ps_check_and_lengths :
    ∀ (time los : List ℤ) (pitch roll rws status : List ℝ)
      (dist hub_hgt lidar_hgt : ℝ) (az zn : Fin 4 → ℝ) (J : Lidar2.psJunk),
      (Lidar2.ps time los pitch roll rws status dist hub_hgt lidar_hgt
          az zn J = Except.error "All sizes must be the same." ↔
        ¬(time.length = pitch.length ∧ pitch.length = roll.length ∧
          roll.length = rws.length)) ∧
      (∀ rows, Lidar2.ps time los pitch roll rws status dist hub_hgt
          lidar_hgt az zn J = Except.ok rows →
        (rows.map Lidar2.psRow.hws).length = los.length ∧
        (rows.map Lidar2.psRow.hwd).length = los.length ∧
        (rows.map Lidar2.psRow.shr).length = los.length ∧
        (rows.map Lidar2.psRow.vr).length = los.length ∧
        (rows.map Lidar2.psRow.ws_upper).length = los.length ∧
        (rows.map Lidar2.psRow.ws_lower).length = los.length) := by
  intro time los pitch roll rws status dist hub_hgt lidar_hgt az zn J
  constructor
  · exact ps_precheck_error_iff time los pitch roll rws status dist
      hub_hgt lidar_hgt az zn J
  · intro rows h
    have hlen := ps_ok_length time los pitch roll rws status dist hub_hgt
      lidar_hgt az zn J rows h
    simp [List.length_map, hlen]

/-- C10 witness: a call with `los_id` and `status` empty but the four
checked arrays of length 1 completes without error and returns
zero-length columns — the `los_id` length. -/
theorem c10_ps_check_and_lengths_witness :
    Lidar2.ps [0] [] [0] [0] [0] [] 1 1 1 (fun _ => 0) (fun _ => 0)
        Lidar2.psJunk0 = Except.ok [] ∧
    (([] : List Lidar2.psRow).map Lidar2.psRow.hws).length =
      ([] : List ℤ).length ∧
    (([] : List Lidar2.psRow).map Lidar2.psRow.hwd).length =
      ([] : List ℤ).length ∧
    (([] : List Lidar2.psRow).map Lidar2.psRow.shr).length =
      ([] : List ℤ).length ∧
    (([] : List Lidar2.psRow).map Lidar2.psRow.vr).length =
      ([] : List ℤ).length ∧
    (([] : List Lidar2.psRow).map Lidar2.psRow.ws_upper).length =
      ([] : List ℤ).length ∧
    (([] : List Lidar2.psRow).map Lidar2.psRow.ws_lower).length =
      ([] : List ℤ).length := by
  have hok : Lidar2.ps [0] [] [0] [0] [0] [] 1 1 1 (fun _ => 0)
      (fun _ => 0) Lidar2.psJunk0 = Except.ok [] := rfl
  exact ⟨hok, (c10_ps_check_and_lengths [0] [] [0] [0] [0] [] 1 1 1
    (fun _ => 0) (fun _ => 0) Lidar2.psJunk0).2 [] hok⟩

/-- C5: the motion-compensated `veer` returns the wrapped angular
difference `atan2(sin Δ, cos Δ)` — a value in `(−π, π]` — divided by the
height difference; but the static variant does not: at
`dir_upr = 3, dir_lwr = −3, hgt_upr = 2, hgt_lwr = 1` it returns `6`
while the wrapped form yields `6 − 2π`. -/
theorem c5_veer_wrapped_only_in_core :
    (∀ dir_upr dir_lwr hgt_upr hgt_lwr : ℝ,
        Core.veer dir_upr dir_lwr hgt_upr hgt_lwr =
          atan2 (Real.sin (dir_upr - dir_lwr)) (Real.cos (dir_upr - dir_lwr)) /
            (hgt_upr - hgt_lwr) ∧
        atan2 (Real.sin (dir_upr - dir_lwr)) (Real.cos (dir_upr - dir_lwr)) ∈
          Set.Ioc (-Real.pi) Real.pi) ∧
    Lidar2.veer 3 (-3) 2 1 ≠
      atan2 (Real.sin ((3 : ℝ) - (-3))) (Real.cos ((3 : ℝ) - (-3))) /
        ((2 : ℝ) - 1) := by
  constructor
  · intro du dl hu hl
    exact ⟨rfl, Complex.arg_mem_Ioc _⟩
  · have h6 : ((3 : ℝ) - (-3)) = 6 := by norm_num
    have hmem : (6 - 2 * Real.pi) ∈ Set.Ioc (-Real.pi) Real.pi := by
      constructor
      · have := Real.pi_lt_d2
        linarith
      · have := Real.pi_gt_d6
        linarith
    have hwrap : atan2 (Real.sin 6) (Real.cos 6) = 6 - 2 * Real.pi := by
      have h1 : Real.sin 6 = Real.sin (6 - 2 * Real.pi) := by
        rw [Real.sin_sub_two_pi]
      have h2 : Real.cos 6 = Real.cos (6 - 2 * Real.pi) := by
        rw [Real.cos_sub_two_pi]
      rw [h1, h2, atan2_sin_cos hmem]
    have hlhs : Lidar2.veer 3 (-3) 2 1 = 6 := by
      unfold Lidar2.veer
      norm_num
    rw [hlhs, h6, hwrap]
    have := Real.pi_gt_d6
    intro hcontra
    norm_num at hcontra
    linarith

/-- C7 counterexample: for unequal wind speeds `2 ≠ 1` and equal heights
the IEEE result of `shear` is `+∞`, not NaN, refuting the claim that
`shear` is NaN at `h1 = h2` for every pair of wind speeds. -/
theorem c7_counterexample : shearF 2 1 10 10 ≠ F.nan := by
  have hlog2 : (0 : ℝ) < Real.log 2 := Real.log_pos (by norm_num)
  have h1 : F.div (F.fin 2) (F.fin 1) = F.fin 2 := by
    simp [F.div]
  have h2 : F.log (F.fin 2) = F.fin (Real.log 2) := by
    simp [F.log]
  have h3 : F.div (F.fin 10) (F.fin 10) = F.fin 1 := by
    norm_num [F.div]
  have h4 : F.log (F.fin 1) = F.fin 0 := by
    simp [F.log, Real.log_one]
  have h5 : F.div (F.fin (Real.log 2)) (F.fin 0) = F.inf := by
    have hstep : F.div (F.fin (Real.log 2)) (F.fin 0) =
        if (0 : ℝ) = 0 then
          (if Real.log 2 = 0 then F.nan
            else if 0 < Real.log 2 then F.inf else F.ninf)
        else F.fin (Real.log 2 / 0) := rfl
    rw [hstep, if_pos rfl, if_neg (ne_of_gt hlog2), if_pos hlog2]
  unfold shearF
  rw [h1, h2, h3, h4, h5]
  intro h
  exact F.noConfusion h

/-- C7 (amended): for equal positive wind speeds, `shear(ws, ws, h1, h2)`
is exactly `0` whenever `h1 ≠ h2` and `h1 / h2 > 0`, and is NaN when the
heights coincide; the NaN clause holds for equal speeds (for unequal
speeds and equal heights the result is an infinity, see the
counterexample). -/
theorem c7_shear_equal_speeds :
    (∀ ws h1 h2 : ℝ, 0 < ws → h1 ≠ h2 → 0 < h1 / h2 →
        shearF ws ws h1 h2 = F.fin 0) ∧
    (∀ ws h : ℝ, 0 < ws → shearF ws ws h h = F.nan) := by
  have hnum : ∀ ws : ℝ, 0 < ws →
      F.log (F.div (F.fin ws) (F.fin ws)) = F.fin 0 := by
    intro ws hws
    have hne : ws ≠ 0 := ne_of_gt hws
    have : F.div (F.fin ws) (F.fin ws) = F.fin 1 := by
      simp [F.div, hne, div_self hne]
    rw [this]
    simp [F.log, Real.log_one]
  constructor
  · intro ws h1 h2 hws hne hpos
    have hh2 : h2 ≠ 0 := by
      intro h
      rw [h, div_zero] at hpos
      exact lt_irrefl 0 hpos
    have hr1 : h1 / h2 ≠ 1 := by
      intro h
      exact hne ((div_eq_one_iff_eq hh2).mp h)
    have hlogne : Real.log (h1 / h2) ≠ 0 := by
      intro h
      rcases Real.log_eq_zero.mp h with h | h | h
      · exact absurd h (ne_of_gt hpos)
      · exact hr1 h
      · rw [h] at hpos
        norm_num at hpos
    have hden : F.log (F.div (F.fin h1) (F.fin h2)) =
        F.fin (Real.log (h1 / h2)) := by
      simp [F.div, hh2, F.log, hpos]
    unfold shearF
    rw [hnum ws hws, hden]
    simp [F.div, hlogne, zero_div]
  · intro ws h hws
    unfold shearF
    rw [hnum ws hws]
    by_cases hh : h = 0
    · subst hh
      simp [F.div, F.log]
    · have : F.div (F.fin h) (F.fin h) = F.fin 1 := by
        simp [F.div, hh, div_self hh]
      rw [this]
      simp [F.log, Real.log_one, F.div]

/-- C7 witness: the amended theorem instantiated at
`ws = 2, h1 = 4, h2 = 1` and at `ws = 2, h = 5`. -/
theorem c7_shear_equal_speeds_witness :
    ((0 : ℝ) < 2 ∧ (4 : ℝ) ≠ 1 ∧ (0 : ℝ) < 4 / 1 ∧
      shearF 2 2 4 1 = F.fin 0) ∧
    ((0 : ℝ) < 2 ∧ shearF 2 2 5 5 = F.nan) :=
  ⟨⟨by norm_num, by norm_num, by norm_num,
      c7_shear_equal_speeds.1 2 4 1 (by norm_num) (by norm_num) (by norm_num)⟩,
    ⟨by norm_num, c7_shear_equal_speeds.2 2 5 (by norm_num)⟩⟩

/-- C8: the static-variant beam-height function returns
`mount_height + lidar_height + (distance / cos zenith) *
(sin zenith * cos pitch * sin (azimuth − roll) + cos zenith * sin pitch)`,
exactly as the spec states. -/
theorem c8_sample_hgt_formula
    (hub_hgt lidar_hgt dist pitch roll azm zn : ℝ) :
    Lidar2.sample_hgt hub_hgt lidar_hgt dist pitch roll azm zn =
      hub_hgt + lidar_hgt + (dist / Real.cos zn) *
        (Real.sin zn * Real.cos pitch * Real.sin (azm - roll) +
          Real.cos zn * Real.sin pitch) := rfl
